import Mathlib

/-!
Verification of the Apache TVM optimizer adapter
(`nebullvm/optimizers/tvm.py`, class `ApacheTVMOptimizer`).

The adapter sequences calls into the external TVM toolchain: select a
hardware target, parse the ONNX file into TVM's intermediate representation,
autotune the extracted tasks into a records file, rebuild with the best
records, and wrap the compiled library in an inference learner.  The
external collaborators (onnx, tvm, torch.cuda, uuid) are opaque: they are
modelled as an explicit environment of functions, and every externally
visible call the adapter makes is recorded in an event trace.  Machinery
that belongs to modules of the repository outside this file (configuration
constants, the model-parameter record, the learner registry) is modelled
from the spec, as marked on each such definition.
-/

set_option linter.unusedVariables false

namespace Nebullvm

/-- Python exception values that the adapter can surface: `TypeError` (a
call with the wrong number of arguments), `KeyError` (a failed dict
subscript), `ValueError` (a failed `int(...)` conversion) and any error
raised inside an opaque external library call. -/
inductive PyErr where
  | typeError (msg : String)
  | keyError (key : String)
  | valueError (msg : String)
  | externalError (msg : String)
deriving DecidableEq, Repr

/-- Decimal digits to the natural number they denote. -/
def digitsToNat (cs : List Char) : Nat :=
  cs.foldl (fun acc c => acc * 10 + (c.toNat - 48)) 0

/-- A nonempty run of decimal digits, or nothing. -/
def parseDigits (cs : List Char) : Option Nat :=
  if cs.isEmpty then none
  else if cs.all Char.isDigit then some (digitsToNat cs) else none

/-- Python `int(s)` on the shapes this adapter can meet: optional
surrounding whitespace, an optional sign, then decimal digits; any other
shape fails (Python raises `ValueError`). -/
def pyParseInt (s : String) : Option Int :=
  let cs := (((s.data.dropWhile Char.isWhitespace).reverse).dropWhile Char.isWhitespace).reverse
  match cs with
  | '+' :: rest => (parseDigits rest).map (fun n => Int.ofNat n)
  | '-' :: rest => (parseDigits rest).map (fun n => -(Int.ofNat n))
  | _ => (parseDigits cs).map (fun n => Int.ofNat n)

/-- `int(os.getenv("TVM_ON_CPU", 0))` (tvm.py line 72): when the variable
is unset the default is already the integer `0`; a set value is converted
with `int`, raising `ValueError` when it does not parse. -/
def envFlagValue (tvmOnCpu : Option String) : Except PyErr Int :=
  match tvmOnCpu with
  | none => Except.ok 0
  | some s =>
      match pyParseInt s with
      | some n => Except.ok n
      | none => Except.error (PyErr.valueError s)

/-- Embedding of `ApacheTVMOptimizer._get_target` (tvm.py lines 70-76):
`force_on_cpu = int(os.getenv("TVM_ON_CPU", 0)) > 1`, then the CUDA target
string when not forced onto CPU and CUDA is available, else `"llvm"`.
`cudaTarget` stands for the opaque `str(tvm.target.cuda())`. -/
def get_target (tvmOnCpu : Option String) (cudaAvailable : Bool) (cudaTarget : String) :
    Except PyErr String :=
  match envFlagValue tvmOnCpu with
  | Except.error e => Except.error e
  | Except.ok n =>
      let force_on_cpu : Bool := decide (1 < n)
      if !force_on_cpu && cudaAvailable then Except.ok cudaTarget
      else Except.ok "llvm"

/-- An in-memory ONNX graph as returned by `onnx.load` (opaque external
data, identified by a tag). -/
structure OnnxGraph where
  tag : Nat
deriving DecidableEq, Repr

/-- TVM's intermediate representation module (`tvm.IRModule`, opaque). -/
structure IRModule where
  tag : Nat
deriving DecidableEq, Repr

/-- The parameter mapping `Dict[str, tvm.nd.NDArray]` returned by the ONNX
frontend (opaque). -/
structure NDParams where
  tag : Nat
deriving DecidableEq, Repr

/-- A tunable task extracted by `autotvm.task.extract_from_program`: opaque
except for its configuration space, whose size the tuning loop reads as
`len(task.config_space)`. -/
structure TvmTask where
  taskName : String
  configSpaceSize : Nat
deriving DecidableEq, Repr

/-- The compiled library produced by `relay.build` (opaque). -/
structure CompiledLib where
  tag : Nat
deriving DecidableEq, Repr

/-- Modelled from the spec: the network parameters carried by the source
model (`self.model.parameters`; its type lives outside this file's slice of
the repository). Opaque data forwarded verbatim to the learner. -/
structure NetworkParams where
  tag : Nat
deriving DecidableEq, Repr

/-- Modelled from the spec: `DeepLearningFramework` (nebullvm.base, not
under src/) is the enumerated originating-framework identifier; modelled as
a plain identifier string. -/
abbrev DeepLearningFramework := String

/-- Modelled from the spec: `ModelParams` (nebullvm.base, not under src/)
carries the batch size and the ordered list of input tensor shapes. -/
structure ModelParams where
  batch_size : Nat
  input_sizes : List (List Nat)
deriving DecidableEq, Repr

/-- Modelled from the spec: the optimizer's source model (`self.model` on
the base optimizer), carrying its originating (parent) framework and its
network parameters. -/
structure SourceModel where
  parent_library : DeepLearningFramework
  parameters : NetworkParams
deriving DecidableEq, Repr

/-- Modelled from the spec: an entry of the `TVM_INFERENCE_LEARNERS`
registry (nebullvm.inference_learners.tvm, not under src/) — an inference
learner class exposing the classmethod `from_runtime_module`. -/
structure LearnerKind where
  clsName : String
deriving DecidableEq, Repr

/-- The inference learner object built by `from_runtime_module`, recording
the class that built it and every argument it received. -/
structure LearnerObj where
  builtBy : String
  network_parameters : NetworkParams
  lib : CompiledLib
  target_device : String
  input_name : String
deriving DecidableEq, Repr

/-- Modelled from the spec: `cls.from_runtime_module(network_parameters=…,
lib=…, target_device=…, input_name=…)` wraps the compiled library in an
inference learner of class `cls`. -/
def LearnerKind.from_runtime_module (cls : LearnerKind) (np : NetworkParams)
    (lib : CompiledLib) (target_device : String) (input_name : String) : LearnerObj :=
  { builtBy := cls.clsName, network_parameters := np, lib := lib,
    target_device := target_device, input_name := input_name }

/-- Modelled from the spec: `AUTO_TVM_TUNING_OPTION` (nebullvm.config, not
under src/): the configured trial count and early-stopping threshold. -/
structure TuningOption where
  trials : Nat
  early_stopping : Nat
deriving DecidableEq, Repr

/-- Modelled from the spec: `AUTO_TVM_PARAMS` (nebullvm.config, not under
src/): the measurement-runner parameters (`number`, `repeat`, `timeout`,
`min_repeat_ms`). -/
structure AutoTvmParams where
  number : Nat
  numRepeat : Nat
  timeout : Nat
  min_repeat_ms : Nat
deriving DecidableEq, Repr

/-- The AutoTVM measurement runner built on tvm.py lines 86-93
(`autotvm.LocalRunner(...)`, with `enable_cpu_cache_flush=True`). -/
structure LocalRunner where
  number : Nat
  numRepeat : Nat
  timeout : Nat
  min_repeat_ms : Nat
  enable_cpu_cache_flush : Bool
deriving DecidableEq, Repr

/-- `autotvm.measure_option(builder=autotvm.LocalBuilder(build_func="default"),
runner=runner)` (tvm.py lines 107-110). -/
structure MeasureOption where
  build_func : String
  runner : LocalRunner
deriving DecidableEq, Repr

/-- One externally visible call made by the adapter, in program order:
loading the ONNX file, handing it to the ONNX frontend with a shape
dictionary, generating the tuning-records filename, starting and finishing
one task's tuning, and the final `relay.build`. -/
inductive Ev where
  | onnxLoadCall (path : String)
  | fromOnnxCall (shape_dict : List (String × List Nat))
  | genRecordsFile (name : String)
  | tuneStart (task : TvmTask) (n_trial : Nat) (early_stopping : Nat)
      (measure : MeasureOption) (logFile : String)
  | tuneEnd (task : TvmTask)
  | relayBuildCall (historyFile : String) (opt_level : Nat)
deriving DecidableEq, Repr

/-- The opaque external world the adapter calls into: the environment
variable and CUDA probe read by `_get_target`, the ONNX loader and
frontend, task extraction, `relay.build`, the stream of `uuid.uuid4()`
draws (indexed by how many draws happened before), and the configuration
and registry imported from the repository's other modules. -/
structure ExternalEnv where
  tvmOnCpu : Option String
  cudaAvailable : Bool
  cudaTargetStr : String
  onnxLoad : String → Except PyErr OnnxGraph
  fromOnnx : OnnxGraph → List (String × List Nat) → Except PyErr (IRModule × NDParams)
  extractTasks : IRModule → String → NDParams → List TvmTask
  relayBuild : IRModule → String → NDParams → String → Nat → Except PyErr CompiledLib
  uuid4 : Nat → String
  tuningOption : TuningOption
  autotvmParams : AutoTvmParams
  learners : List (DeepLearningFramework × LearnerKind)

/-- Python dict subscript `d[k]`: the stored value, or `KeyError`. -/
def pyDictGet (d : List (DeepLearningFramework × LearnerKind))
    (k : DeepLearningFramework) : Except PyErr LearnerKind :=
  match d.lookup k with
  | some v => Except.ok v
  | none => Except.error (PyErr.keyError k)

/-- The shape dictionary built by `_build_tvm_model` (tvm.py lines 58-65):
for the i-th input size, the key `input_i` mapped to the tuple
`(batch_size, *input_size)`, in input order. -/
def shapeDict (model_params : ModelParams) : List (String × List Nat) :=
  model_params.input_sizes.enum.map
    (fun p => ("input_" ++ toString p.1, model_params.batch_size :: p.2))

/-- Embedding of the static method `ApacheTVMOptimizer._build_tvm_model`
(tvm.py lines 55-68): build the shape dictionary, load the ONNX file from
the given path, and hand both to `relay.frontend.from_onnx`.  Returns the
frontend's result together with the trace of external calls made. -/
def build_tvm_model (env : ExternalEnv) (onnx_model_path : String)
    (model_params : ModelParams) : Except PyErr (IRModule × NDParams) × List Ev :=
  let shape_dict := shapeDict model_params
  match env.onnxLoad onnx_model_path with
  | Except.error e => (Except.error e, [Ev.onnxLoadCall onnx_model_path])
  | Except.ok onnx_model =>
      (env.fromOnnx onnx_model shape_dict,
        [Ev.onnxLoadCall onnx_model_path, Ev.fromOnnxCall shape_dict])

/-- The `autotvm.LocalRunner` built from the configured parameters
(tvm.py lines 86-93). -/
def localRunnerOf (env : ExternalEnv) : LocalRunner :=
  { number := env.autotvmParams.number, numRepeat := env.autotvmParams.numRepeat,
    timeout := env.autotvmParams.timeout, min_repeat_ms := env.autotvmParams.min_repeat_ms,
    enable_cpu_cache_flush := true }

/-- The measure option passed to every `tuner_obj.tune` call
(tvm.py lines 107-110). -/
def measureOptionOf (env : ExternalEnv) : MeasureOption :=
  { build_func := "default", runner := localRunnerOf env }

/-- One iteration of the tuning loop (tvm.py lines 101-114): create an
XGBTuner for the task and run it with trial budget
`min(trials, len(task.config_space))`, the configured early stopping, the
shared measure option, and a log-to-file callback on the shared records
file. -/
def tuneTaskEvents (opt : TuningOption) (measure : MeasureOption)
    (tuning_records : String) (task : TvmTask) : List Ev :=
  [Ev.tuneStart task (min opt.trials task.configSpaceSize) opt.early_stopping
      measure tuning_records,
    Ev.tuneEnd task]

/-- Embedding of the static method `ApacheTVMOptimizer._tune_tvm_model`
(tvm.py lines 78-115): draw a fresh uuid4 and name the records file after
it, build the runner, extract the tunable tasks, and tune them one after
another in a for loop, each logging to the records file.  `uuidIdx` counts
the uuid4 draws made before this call; the function returns the records
filename, the advanced draw counter, and the trace. -/
def tune_tvm_model (env : ExternalEnv) (uuidIdx : Nat) (target : String)
    (mod : IRModule) (params : NDParams) : (String × Nat) × List Ev :=
  let tuning_records := env.uuid4 uuidIdx ++ "_model_records.json"
  let runner := localRunnerOf env
  let tasks := env.extractTasks mod target params
  let measure := measureOptionOf env
  ((tuning_records, uuidIdx + 1),
    Ev.genRecordsFile tuning_records ::
      tasks.foldl (fun acc task =>
        acc ++ tuneTaskEvents env.tuningOption measure tuning_records task) [])

/-- The tail of `optimize` once `mod, params` are in hand (tvm.py lines
41-53): tune, rebuild under `apply_history_best(tuning_records)` at
`opt_level=3`, and wrap the library via the `TVM_INFERENCE_LEARNERS`
registry keyed by `self.model.parent_library`, with `input_name="input"`. -/
def optimizeFrom (env : ExternalEnv) (model : SourceModel) (uuidIdx : Nat)
    (target : String) (mp : IRModule × NDParams) : Except PyErr LearnerObj × List Ev :=
  let t := tune_tvm_model env uuidIdx target mp.1 mp.2
  let tuning_records := t.1.1
  match env.relayBuild mp.1 target mp.2 tuning_records 3 with
  | Except.error e => (Except.error e, t.2 ++ [Ev.relayBuildCall tuning_records 3])
  | Except.ok lib =>
      match pyDictGet env.learners model.parent_library with
      | Except.error e => (Except.error e, t.2 ++ [Ev.relayBuildCall tuning_records 3])
      | Except.ok cls =>
          (Except.ok (cls.from_runtime_module model.parameters lib target "input"),
            t.2 ++ [Ev.relayBuildCall tuning_records 3])

/-- Embedding of `ApacheTVMOptimizer.optimize` (tvm.py lines 33-53).  Line
40 reads `mod, params = self._build_tvm_model()`: `_build_tvm_model` is a
static method with two required positional parameters (`onnx_model_path`,
`model_params`), so this zero-argument call raises `TypeError` before the
supplied path is opened; the arguments `onnx_model`, `output_library` and
`model_params` are never read.  The remaining pipeline (`optimizeFrom`) is
the embedding of lines 41-53 and would run only if that call returned. -/
def optimize (env : ExternalEnv) (model : SourceModel) (uuidIdx : Nat)
    (onnx_model : String) (output_library : DeepLearningFramework)
    (model_params : ModelParams) : Except PyErr LearnerObj × List Ev :=
  match get_target env.tvmOnCpu env.cudaAvailable env.cudaTargetStr with
  | Except.error e => (Except.error e, [])
  | Except.ok target =>
      let buildCall : Except PyErr (IRModule × NDParams) :=
        Except.error (PyErr.typeError
          "_build_tvm_model() missing 2 required positional arguments: onnx_model_path and model_params")
      match buildCall with
      | Except.error e => (Except.error e, [])
      | Except.ok mp => optimizeFrom env model uuidIdx target mp

/-- A concrete external environment for evaluating the adapter at concrete
inputs: no override variable, no GPU, one extracted task, every external
call succeeding, and a registry holding the pytorch learner. -/
def exEnv : ExternalEnv :=
  { tvmOnCpu := none
    cudaAvailable := false
    cudaTargetStr := "cuda -keys=cuda,gpu"
    onnxLoad := fun _ => Except.ok { tag := 7 }
    fromOnnx := fun g d => Except.ok ({ tag := g.tag }, { tag := d.length })
    extractTasks := fun _ _ _ => [{ taskName := "conv2d", configSpaceSize := 4 }]
    relayBuild := fun _ _ _ _ _ => Except.ok { tag := 3 }
    uuid4 := fun n => "uuid-" ++ toString n
    tuningOption := { trials := 10, early_stopping := 100 }
    autotvmParams := { number := 1, numRepeat := 10, timeout := 10, min_repeat_ms := 0 }
    learners := [("pytorch", { clsName := "PytorchApacheTVMInferenceLearner" })] }

/-- `exEnv` with an ONNX loader that raises for every path, as `onnx.load`
does on a missing or invalid file. -/
def exEnvBad : ExternalEnv :=
  { exEnv with onnxLoad := fun p => Except.error (PyErr.externalError ("No such file: " ++ p)) }

/-- A concrete source model whose parent framework is in `exEnv`'s
registry. -/
def exModel : SourceModel := { parent_library := "pytorch", parameters := { tag := 0 } }

/-- A concrete source model whose parent framework is absent from `exEnv`'s
registry. -/
def exModelUnknown : SourceModel := { parent_library := "keras", parameters := { tag := 0 } }

/-- Concrete model parameters: batch size 1, one input of shape
3x224x224. -/
def exParams : ModelParams := { batch_size := 1, input_sizes := [[3, 224, 224]] }

end Nebullvm

namespace Nebullvm

/-- Claim C1 (code bug): at a concrete call satisfying the claim's
preconditions (a loadable ONNX path, one shape entry per input),
`optimize` raises `TypeError` from the zero-argument
`self._build_tvm_model()` call on line 40 and performs no external call at
all — in particular the ONNX file at the supplied path is never parsed and
the supplied `model_params` are never used, so the second pipeline step
never invokes `_build_tvm_model` on them as the claim states. -/
theorem c1_optimize_never_invokes_build_on_its_arguments :
    optimize exEnv exModel 0 "model.onnx" "pytorch" exParams
      = (Except.error (PyErr.typeError
          "_build_tvm_model() missing 2 required positional arguments: onnx_model_path and model_params"),
        []) := rfl

/-- Claim C4: a call to `optimize` whose ONNX path is missing or invalid
(its loader raises) itself raises, and its trace of external calls is
empty: no tuning-records filename is generated and no tuner is invoked, so
no tuning artifact is created.  (The raise indeed happens at the
model-parsing step: line 40 raises `TypeError` there, before the
randomly-named records file of the tuning step could be drawn.) -/
theorem c4_bad_path_raises_before_any_tuning (env : ExternalEnv) (model : SourceModel)
    (uuidIdx : Nat) (path : String) (out : DeepLearningFramework)
    (model_params : ModelParams) (err : PyErr)
    (hbad : env.onnxLoad path = Except.error err) :
    (∃ e, (optimize env model uuidIdx path out model_params).1 = Except.error e) ∧
      (optimize env model uuidIdx path out model_params).2 = [] := by
  rcases hg : get_target env.tvmOnCpu env.cudaAvailable env.cudaTargetStr with e | target
  · exact ⟨⟨e, by simp [optimize, hg]⟩, by simp [optimize, hg]⟩
  · refine ⟨⟨PyErr.typeError
      "_build_tvm_model() missing 2 required positional arguments: onnx_model_path and model_params",
      by simp [optimize, hg]⟩, by simp [optimize, hg]⟩

/-- Witness for C4: a concrete call with an unreadable path raises and
leaves an empty trace. -/
theorem c4_witness :
    exEnvBad.onnxLoad "missing.onnx"
        = Except.error (PyErr.externalError "No such file: missing.onnx") ∧
      ((∃ e, (optimize exEnvBad exModel 0 "missing.onnx" "pytorch" exParams).1
          = Except.error e) ∧
        (optimize exEnvBad exModel 0 "missing.onnx" "pytorch" exParams).2 = []) :=
  ⟨rfl, c4_bad_path_raises_before_any_tuning exEnvBad exModel 0 "missing.onnx" "pytorch"
    exParams (PyErr.externalError "No such file: missing.onnx") rfl⟩

/-- Claim C5 (code bug): at a concrete call whose source framework "keras"
is not a key of the registry, the registry subscript would raise
`KeyError("keras")` — but `optimize` never reaches it: it raises
`TypeError` from the zero-argument `self._build_tvm_model()` call on line
40, so no call completes, no learner is ever constructed from the registry,
and the claimed plain lookup error never surfaces. -/
theorem c5_unknown_framework_yields_type_error_not_key_error :
    pyDictGet exEnv.learners exModelUnknown.parent_library
        = Except.error (PyErr.keyError "keras") ∧
      optimize exEnv exModelUnknown 0 "model.onnx" "onnx" exParams
        = (Except.error (PyErr.typeError
            "_build_tvm_model() missing 2 required positional arguments: onnx_model_path and model_params"),
          []) :=
  ⟨rfl, rfl⟩

/-- Claim C10: `optimize` never reads its `output_library` argument: two
calls that differ only in it have identical results and identical traces
(the learner, were one built, is selected by `self.model.parent_library`
alone). -/
theorem c10_output_library_never_read (env : ExternalEnv) (model : SourceModel)
    (uuidIdx : Nat) (onnx_model : String) (lib1 lib2 : DeepLearningFramework)
    (model_params : ModelParams) :
    optimize env model uuidIdx onnx_model lib1 model_params
      = optimize env model uuidIdx onnx_model lib2 model_params := rfl

/-- Claim C2: whenever the TVM_ON_CPU override parses to an integer
strictly greater than 1, `_get_target` returns the generic CPU backend
identifier "llvm", regardless of whether a CUDA GPU is available. -/
theorem c2_override_above_one_forces_llvm (s : String) (n : Int) (cuda : Bool)
    (cudaTarget : String) (hp : pyParseInt s = some n) (hn : 1 < n) :
    get_target (some s) cuda cudaTarget = Except.ok "llvm" := by
  simp [get_target, envFlagValue, hp, hn]

/-- Witness for C2: with TVM_ON_CPU set to "2" and a GPU available, the
selected target is "llvm". -/
theorem c2_witness :
    pyParseInt "2" = some 2 ∧ (1 : Int) < 2 ∧
      get_target (some "2") true "cuda -keys=cuda,gpu" = Except.ok "llvm" :=
  ⟨by decide, by decide,
    c2_override_above_one_forces_llvm "2" 2 true "cuda -keys=cuda,gpu" (by decide) (by decide)⟩

/-- Claim C3: when the TVM_ON_CPU override is unset, or parses to an
integer not strictly greater than 1, and a CUDA GPU is available,
`_get_target` returns the CUDA target string, which (being distinct from
"llvm") is not the CPU identifier. -/
theorem c3_gpu_available_returns_cuda_target (tvmOnCpu : Option String) (n : Int)
    (cudaTarget : String) (henv : envFlagValue tvmOnCpu = Except.ok n)
    (hn : ¬ 1 < n) (hne : cudaTarget ≠ "llvm") :
    get_target tvmOnCpu true cudaTarget = Except.ok cudaTarget ∧
      get_target tvmOnCpu true cudaTarget ≠ Except.ok "llvm" := by
  have h1 : get_target tvmOnCpu true cudaTarget = Except.ok cudaTarget := by
    simp [get_target, henv, hn]
  refine ⟨h1, ?_⟩
  rw [h1]
  intro h
  exact hne (Except.ok.inj h)

/-- Witness for C3: with TVM_ON_CPU unset (its default value 0) and a GPU
available, the selected target is the CUDA string, not "llvm". -/
theorem c3_witness :
    envFlagValue none = Except.ok 0 ∧ ¬ (1 : Int) < 0 ∧ "cuda -keys=cuda,gpu" ≠ "llvm" ∧
      (get_target none true "cuda -keys=cuda,gpu" = Except.ok "cuda -keys=cuda,gpu" ∧
        get_target none true "cuda -keys=cuda,gpu" ≠ Except.ok "llvm") :=
  ⟨rfl, by decide, by decide,
    c3_gpu_available_returns_cuda_target none 0 "cuda -keys=cuda,gpu" rfl (by decide) (by decide)⟩

/-- The tuning loop's trace accumulator, written as the concatenation of
the per-task event blocks. -/
theorem tuneLoop_trace (opt : TuningOption) (measure : MeasureOption)
    (recordsFile : String) (tasks : List TvmTask) (init : List Ev) :
    tasks.foldl (fun acc task => acc ++ tuneTaskEvents opt measure recordsFile task) init
      = init ++ (tasks.map (tuneTaskEvents opt measure recordsFile)).flatten := by
  induction tasks generalizing init with
  | nil => simp
  | cons t ts ih => simp [ih]

/-- Claim C6: for every task extracted during `_tune_tvm_model`, the tuner
is invoked on that task with trial budget
`min(configured trials, len(task.config_space))`, the configured
early-stopping threshold and the shared measure option, logging to the
tuning-records file the function returns. -/
theorem c6_every_task_tuned_with_min_budget (env : ExternalEnv) (uuidIdx : Nat)
    (target : String) (mod : IRModule) (params : NDParams) (task : TvmTask)
    (hmem : task ∈ env.extractTasks mod target params) :
    Ev.tuneStart task (min env.tuningOption.trials task.configSpaceSize)
        env.tuningOption.early_stopping (measureOptionOf env)
        (tune_tvm_model env uuidIdx target mod params).1.1
      ∈ (tune_tvm_model env uuidIdx target mod params).2 := by
  simp only [tune_tvm_model, tuneLoop_trace, List.nil_append]
  refine List.mem_cons_of_mem _ ?_
  refine List.mem_flatten.mpr
    ⟨tuneTaskEvents env.tuningOption (measureOptionOf env)
        (env.uuid4 uuidIdx ++ "_model_records.json") task,
      List.mem_map_of_mem _ hmem, ?_⟩
  simp [tuneTaskEvents]

/-- Witness for C6: in the concrete environment, the single extracted task
(config space of size 4, configured trials 10) is tuned with budget
`min 10 4` and early stopping 100, logging to the returned records file. -/
theorem c6_witness :
    (⟨"conv2d", 4⟩ : TvmTask) ∈ exEnv.extractTasks ⟨1⟩ "llvm" ⟨0⟩ ∧
      Ev.tuneStart ⟨"conv2d", 4⟩ (min exEnv.tuningOption.trials 4)
          exEnv.tuningOption.early_stopping (measureOptionOf exEnv)
          (tune_tvm_model exEnv 0 "llvm" ⟨1⟩ ⟨0⟩).1.1
        ∈ (tune_tvm_model exEnv 0 "llvm" ⟨1⟩ ⟨0⟩).2 :=
  ⟨by decide,
    c6_every_task_tuned_with_min_budget exEnv 0 "llvm" ⟨1⟩ ⟨0⟩ ⟨"conv2d", 4⟩ (by decide)⟩

/-- Claim C7: the trace of `_tune_tvm_model` is exactly the records-file
generation followed by one (start, end) tuning block per extracted task,
in extraction order — so each task's tuning ends before the next begins,
none is skipped or reordered — and every block logs to the single records
file that is the function's return value. -/
theorem c7_tasks_tuned_sequentially_in_extraction_order (env : ExternalEnv)
    (uuidIdx : Nat) (target : String) (mod : IRModule) (params : NDParams) :
    (tune_tvm_model env uuidIdx target mod params).2
      = Ev.genRecordsFile (tune_tvm_model env uuidIdx target mod params).1.1 ::
        ((env.extractTasks mod target params).map (fun task =>
          [Ev.tuneStart task (min env.tuningOption.trials task.configSpaceSize)
              env.tuningOption.early_stopping (measureOptionOf env)
              (tune_tvm_model env uuidIdx target mod params).1.1,
            Ev.tuneEnd task])).flatten := by
  simp only [tune_tvm_model, tuneLoop_trace, List.nil_append]
  rfl

/-- Claim C8: two sequential runs of `_tune_tvm_model` — the second
starting from the uuid-draw counter the first returns — consume distinct
positions of the uuid4 stream, so as long as those two draws differ (the
guarantee uuid4 provides), the two tuning-records filenames differ. -/
theorem c8_sequential_runs_name_distinct_records_files (env : ExternalEnv) (i : Nat)
    (t1 t2 : String) (m1 m2 : IRModule) (p1 p2 : NDParams)
    (hfresh : env.uuid4 i ≠ env.uuid4 (i + 1)) :
    (tune_tvm_model env i t1 m1 p1).1.2 = i + 1 ∧
      (tune_tvm_model env i t1 m1 p1).1.1
        ≠ (tune_tvm_model env ((tune_tvm_model env i t1 m1 p1).1.2) t2 m2 p2).1.1 := by
  refine ⟨rfl, ?_⟩
  intro h
  apply hfresh
  have h' : env.uuid4 i ++ "_model_records.json"
      = env.uuid4 (i + 1) ++ "_model_records.json" := h
  have hd := congrArg String.data h'
  simp only [String.data_append] at hd
  exact String.ext (List.append_cancel_right hd)

/-- Witness for C8: in the concrete environment, the first run returns
draw counter 1; running again from it yields a records filename different
from the first run's. -/
theorem c8_witness :
    exEnv.uuid4 0 ≠ exEnv.uuid4 (0 + 1) ∧
      ((tune_tvm_model exEnv 0 "llvm" ⟨1⟩ ⟨0⟩).1.2 = 0 + 1 ∧
        (tune_tvm_model exEnv 0 "llvm" ⟨1⟩ ⟨0⟩).1.1
          ≠ (tune_tvm_model exEnv ((tune_tvm_model exEnv 0 "llvm" ⟨1⟩ ⟨0⟩).1.2)
              "cuda -keys=cuda,gpu" ⟨2⟩ ⟨1⟩).1.1) :=
  ⟨by decide,
    c8_sequential_runs_name_distinct_records_files exEnv 0 "llvm" "cuda -keys=cuda,gpu"
      ⟨1⟩ ⟨2⟩ ⟨0⟩ ⟨1⟩ (by decide)⟩

/-- Claim C9: the shape dictionary has exactly one entry per input size;
its i-th entry is keyed `input_i` with value the batch size followed by
the i-th input size; and on a loadable path `_build_tvm_model` hands
exactly this dictionary, with the loaded model, to the ONNX frontend. -/
theorem c9_shape_dict_keys_and_values (env : ExternalEnv) (path : String)
    (p : ModelParams) (i : Nat) (sz : List Nat) (g : OnnxGraph)
    (hsz : p.input_sizes[i]? = some sz)
    (hload : env.onnxLoad path = Except.ok g) :
    (shapeDict p).length = p.input_sizes.length ∧
      (shapeDict p)[i]? = some ("input_" ++ toString i, p.batch_size :: sz) ∧
      (build_tvm_model env path p).1 = env.fromOnnx g (shapeDict p) ∧
      Ev.fromOnnxCall (shapeDict p) ∈ (build_tvm_model env path p).2 := by
  refine ⟨by simp [shapeDict], ?_, ?_, ?_⟩
  · simp [shapeDict, List.getElem?_map, List.getElem?_enum, hsz]
  · simp [build_tvm_model, hload]
  · simp [build_tvm_model, hload]

/-- Witness for C9: for batch size 1 and single input shape [3, 224, 224],
the dictionary is the single entry ("input_0", [1, 3, 224, 224]) and is
passed to the frontend. -/
theorem c9_witness :
    exParams.input_sizes[0]? = some [3, 224, 224] ∧
      exEnv.onnxLoad "model.onnx" = Except.ok ⟨7⟩ ∧
      ((shapeDict exParams).length = exParams.input_sizes.length ∧
        (shapeDict exParams)[0]? = some ("input_" ++ toString 0, exParams.batch_size :: [3, 224, 224]) ∧
        (build_tvm_model exEnv "model.onnx" exParams).1
          = exEnv.fromOnnx ⟨7⟩ (shapeDict exParams) ∧
        Ev.fromOnnxCall (shapeDict exParams) ∈ (build_tvm_model exEnv "model.onnx" exParams).2) :=
  ⟨rfl, rfl,
    c9_shape_dict_keys_and_values exEnv "model.onnx" exParams 0 [3, 224, 224] ⟨7⟩ rfl rfl⟩

end Nebullvm
